import Mathlib

/-!
Verification development for the StrongBot repository.

Shallow embedding of the core logic of `discord_bot.py` and
`expense_handler.py`: the epoch-watcher state machine, the value
normalisation / formatting helpers, the wallet-balance feed parser, the
category normalisation of the expense modal, and the dual-sink ledger
writer.  Strings are modelled as `List Char` where character-level
manipulation matters; Python floats are modelled as exact rationals `ℚ`,
and Python's `float(str)` conversion is modelled for plain decimal
literals with optional sign, decimal point and exponent (the inputs that
occur in this program).
-/

namespace StrongBot

/-! ## Character and string helpers (models of the Python `str` operations used) -/

/-- Model of a decimal digit test, `'0' ≤ c ≤ '9'` (as in Python's float grammar). -/
def isDig (c : Char) : Bool := 48 ≤ c.toNat && c.toNat ≤ 57

/-- Model of Python `str.upper` on a single ASCII character. -/
def upchar (c : Char) : Char :=
  if 97 ≤ c.toNat && c.toNat ≤ 122 then Char.ofNat (c.toNat - 32) else c

/-- Model of Python `str.upper` on a string. -/
def upperL (cs : List Char) : List Char := cs.map upchar

/-- Model of Python `str.replace(c, '')`: delete every occurrence of `c`. -/
def removeAllChar (c : Char) (cs : List Char) : List Char :=
  cs.filter (fun d => d ≠ c)

/-- Model of the Python membership test `c in s`. -/
def hasChar (cs : List Char) (c : Char) : Bool :=
  match cs with
  | [] => false
  | d :: t => d = c || hasChar t c

/-- Model of Python `str.startswith`. -/
def beginsWith : List Char → List Char → Bool
  | [], _ => true
  | _ :: _, [] => false
  | a :: as, b :: bs => a = b && beginsWith as bs

/-- Whitespace characters stripped by Python `str.strip()` (the ASCII ones). -/
def isPyWs (c : Char) : Bool :=
  c = ' ' || c = '\t' || c = '\n' || c = '\x0d' || c = '\x0b' || c = '\x0c'

/-- Model of Python `str.strip()`: drop leading and trailing whitespace. -/
def pyStrip (cs : List Char) : List Char :=
  ((cs.dropWhile isPyWs).reverse.dropWhile isPyWs).reverse

/-! ## Model of Python `float(str)` on decimal literals -/

/-- Numeric value of a digit character. -/
def digitVal (c : Char) : ℕ := c.toNat - 48

/-- Value of a list of digit characters read in base 10. -/
def digitsToNat (ds : List Char) : ℕ := ds.foldl (fun a c => 10 * a + digitVal c) 0

/-- Finish a float parse: combine sign, integer digits and fraction digits into an
exact rational, then handle an optional exponent part; any other trailing
characters make the conversion fail (Python raises `ValueError`, modelled as `none`). -/
def floatFinish (sgn : ℚ) (ip fp rest : List Char) : Option ℚ :=
  let mant : ℚ := sgn * ((digitsToNat (ip ++ fp) : ℚ) / 10 ^ fp.length)
  match rest with
  | [] => some mant
  | e :: t =>
    if e = 'e' ∨ e = 'E' then
      let (esgn, t2) : ℤ × List Char :=
        match t with
        | '+' :: u => (1, u)
        | '-' :: u => (-1, u)
        | u => (1, u)
      let (ed, t3) := t2.span isDig
      if ed.isEmpty ∨ ¬ t3.isEmpty then none
      else some (mant * (10 : ℚ) ^ (esgn * (digitsToNat ed : ℤ)))
    else none

/-- Model of Python `float(s)` for decimal literals: optional sign, digits with an
optional decimal point (at least one digit required), optional exponent.
A string outside this grammar raises `ValueError` in Python, modelled as `none`. -/
def pyFloat (cs : List Char) : Option ℚ :=
  let (sgn, cs1) : ℚ × List Char :=
    match cs with
    | '+' :: t => (1, t)
    | '-' :: t => (-1, t)
    | t => (1, t)
  let (ip, cs2) := cs1.span isDig
  match cs2 with
  | '.' :: cs3 =>
    let (fp, cs4) := cs3.span isDig
    if ip.isEmpty && fp.isEmpty then none else floatFinish sgn ip fp cs4
  | rest =>
    if ip.isEmpty then none else floatFinish sgn ip [] rest

/-- Convenience wrapper taking a `String`. -/
def pyFloatS (s : String) : Option ℚ := pyFloat s.data

/-! ## Model of Python fixed-point formatting (`f-string` `:,.1f` / `:,.2f` / `:.2f`) -/

/-- Round a rational to the nearest integer, ties to even (the rounding used by
Python's fixed-point float formatting). -/
def roundHalfEven (q : ℚ) : ℤ :=
  let f := Int.floor q
  let r := q - f
  if r < 1 / 2 then f
  else if 1 / 2 < r then f + 1
  else if f % 2 = 0 then f else f + 1

/-- Character for a digit value below 10. -/
def digChar (n : ℕ) : Char := Char.ofNat (48 + n)

/-- Decimal digit characters of a natural number (fuelled structural recursion so
that the definition reduces by `rfl`). -/
def natDigitsF : ℕ → ℕ → List Char
  | 0, _ => []
  | fuel + 1, n => if n < 10 then [digChar n] else natDigitsF fuel (n / 10) ++ [digChar (n % 10)]

/-- Decimal digit characters of a natural number. -/
def natDigits (n : ℕ) : List Char := natDigitsF (n + 1) n

/-- Insert a `','` after every three characters of a reversed digit list (the
helper behind Python's `,` thousands-grouping format flag). -/
def group3rev : List Char → List Char
  | d1 :: d2 :: d3 :: d4 :: rest => d1 :: d2 :: d3 :: ',' :: group3rev (d4 :: rest)
  | l => l

/-- Decimal digits of a natural number with `','` thousands separators. -/
def natDigitsGrouped (n : ℕ) : List Char := (group3rev (natDigits n).reverse).reverse

/-- Pad a digit list on the left with `'0'` up to length `prec`. -/
def padZeros (prec : ℕ) (ds : List Char) : List Char :=
  List.replicate (prec - ds.length) '0' ++ ds

/-- Model of the Python format `f"{q:,.prec f}"`: sign, comma-grouped integer part,
and exactly `prec` fraction digits, rounding half-to-even. -/
def fmtComma (q : ℚ) (prec : ℕ) : List Char :=
  let s := roundHalfEven (q * 10 ^ prec)
  let n := s.natAbs
  (if q < 0 then ['-'] else []) ++ natDigitsGrouped (n / 10 ^ prec) ++
    (if prec = 0 then [] else '.' :: padZeros prec (natDigits (n % 10 ^ prec)))

/-- Model of the Python format `f"{q:.prec f}"` (no thousands grouping). -/
def fmtPlain (q : ℚ) (prec : ℕ) : List Char :=
  let s := roundHalfEven (q * 10 ^ prec)
  let n := s.natAbs
  (if q < 0 then ['-'] else []) ++ natDigits (n / 10 ^ prec) ++
    (if prec = 0 then [] else '.' :: padZeros prec (natDigits (n % 10 ^ prec)))

/-! ## Values crossing the Python dynamic-typing boundary -/

/-- A dynamically typed Python value as it reaches the numeric formatting and
parsing code: `None`, an `int`/`float` (modelled as an exact rational), or a
`str`. -/
inductive PyVal where
  | pnone : PyVal
  | num : ℚ → PyVal
  | str : List Char → PyVal
deriving DecidableEq

/-! ## `format_volume` (discord_bot.py lines 43-55) -/

/-- Model of `format_volume`: `None` renders as `"N/A"`; a number at least one
million is rendered as `$…M` with one decimal, at least one thousand as `$…K`
with one decimal, otherwise as a plain 2-decimal currency string; a non-numeric
value (a `str`) makes the `>=` comparison raise `TypeError`, which the
`except (TypeError, ValueError)` clause turns into `"N/A"`. -/
def format_volume : PyVal → List Char
  | PyVal.pnone => "N/A".data
  | PyVal.num v =>
    if v ≥ 1000000 then '$' :: fmtComma (v / 1000000) 1 ++ ['M']
    else if v ≥ 1000 then '$' :: fmtComma (v / 1000) 1 ++ ['K']
    else '$' :: fmtComma v 2
  | PyVal.str _ => "N/A".data

/-! ## Volume-string parsing (discord_bot.py lines 497-511) -/

/-- Strip `'$'` and `','` characters, as `volume_str.replace('$', '').replace(',', '')`. -/
def cleanVolumeStr (cs : List Char) : List Char :=
  removeAllChar ',' (removeAllChar '$' cs)

/-- Model of the volume parsing block of `post_update`: an `int`/`float` passes
through; a string is cleaned of `$` and `,`, then if its upper-cased form
contains `K` the remainder (with `K` removed) is parsed and multiplied by
1,000, else if it contains `M` multiplied by 1,000,000, else the cleaned
string is parsed as a literal; a failed `float` conversion yields `None`. -/
def parseVolume : PyVal → Option ℚ
  | PyVal.pnone => none
  | PyVal.num v => some v
  | PyVal.str cs =>
    let cleaned := cleanVolumeStr cs
    let up := upperL cleaned
    if hasChar up 'K' then (pyFloat (removeAllChar 'K' up)).map (· * 1000)
    else if hasChar up 'M' then (pyFloat (removeAllChar 'M' up)).map (· * 1000000)
    else pyFloat cleaned

/-! ## Sanctum APY (discord_bot.py lines 321-374 and 490-494) -/

/-- Model of the value computation of `get_sanctum_apy` (lines 354-367): when
the API response carries `latestApy` (a fraction of one, e.g. `0.082`), the
value returned — and held by the caller in `sanctum_apy` — is
`apy_decimal * 100`, the display-percent form; absent data yields `None`. -/
def get_sanctum_apy (latestApy : Option ℚ) : Option ℚ :=
  match latestApy with
  | some apy_decimal => some (apy_decimal * 100)
  | none => none

/-- Model of the `StrongSOL Last APY` embed field of `post_update`
(lines 490-494): the held value is formatted with two decimals and a `%`
appended, with no scaling at this boundary; `None` renders as `"N/A"`. -/
def apyFieldValue (sanctum_apy : Option ℚ) : List Char :=
  match sanctum_apy with
  | some v => fmtPlain v 2 ++ ['%']
  | none => "N/A".data

/-! ## Wallet balances (discord_bot.py lines 290-319 and 453-488) -/

/-- The dictionary returned by `get_wallet_balances`: the parsed rows, the
running total, and the optional `"error"` entry present only on a failed fetch. -/
structure WalletData where
  individual_balances : List (List Char × ℚ)
  total_balance : ℚ
  error : Option (List Char)

/-- Per-row parse of the wallet CSV (lines 302-309): a row with at least two
fields whose second field converts with `float` yields an
`(address, balance)` entry; any other row is skipped with a logged reason. -/
def walletRowParse : List (List Char) → Option (List Char × ℚ)
  | a :: b :: _ => (pyFloat b).map (fun q => (a, q))
  | _ => none

/-- Model of the row loop of `get_wallet_balances` (lines 301-309), after the
header row was skipped by `next(reader)`: accumulate the successfully parsed
rows in order and the running `total_sol`. -/
def walletParseRows : List (List (List Char)) → List (List Char × ℚ) × ℚ
  | [] => ([], 0)
  | r :: rest =>
    match walletRowParse r with
    | some e => (e :: (walletParseRows rest).1, e.2 + (walletParseRows rest).2)
    | none => walletParseRows rest

/-- Model of `get_wallet_balances` on a successful fetch (line 310). -/
def get_wallet_balances_ok (rows : List (List (List Char))) : WalletData :=
  let (bs, t) := walletParseRows rows
  ⟨bs, t, none⟩

/-- Model of `get_wallet_balances` on a failed fetch (lines 311-319): all three
`except` clauses return empty balances, a `0.0` total, and the error reason. -/
def get_wallet_balances_failed (e : List Char) : WalletData :=
  ⟨[], 0, some e⟩

/-- The custom wallet labels of `post_update` (lines 473-477). -/
def wallet_labels : List (List Char × List Char) :=
  [("Cx46fVnmtGBpGJtsdQMWhHTfGkKnswJHx1QhSCp16DWF".data, "Multisig".data),
   ("91oPXTs2oq8VvJpQ5TnvXakFGnnJSpEB6HFWDtSctwMt".data, "Identity".data),
   ("Ac1beBKixfNdrTAac7GRaTsJTxLyvgGvJjvy4qQfvyfc".data, "Vote".data)]

/-- Label for a wallet address (line 482): the custom label, or `"Wallet"`. -/
def walletLabel (addr : List Char) : List Char :=
  match wallet_labels.find? (fun p => decide (p.1 = addr)) with
  | some p => p.2
  | none => "Wallet".data

/-- Embed field name for one wallet (line 483): label and truncated address
(`addr[:4]` and `addr[-4:]`). -/
def walletFieldName (addr : List Char) : List Char :=
  walletLabel addr ++ ": ".data ++ addr.take 4 ++ "...".data ++ addr.drop (addr.length - 4)

/-- Model of the wallet section of the `post_update` embed (lines 479-488):
with parsed balances, one field per wallet plus the `Total Wallet Balance`
field; otherwise, with a truthy `error`, a single error field; otherwise a
single `"N/A"` field. Fields are (name, value) pairs. -/
def walletEmbedFields (w : WalletData) : List (List Char × List Char) :=
  if w.individual_balances ≠ [] then
    w.individual_balances.map
        (fun p => (walletFieldName p.1, fmtComma p.2 2 ++ " SOL".data))
      ++ [("Total Wallet Balance".data, fmtComma w.total_balance 2 ++ " SOL".data)]
  else
    match w.error with
    | some e =>
      if e ≠ [] then [("Wallet Balances".data, "Error fetching: ".data ++ e)]
      else [("Wallet Balances".data, "N/A".data)]
    | none => [("Wallet Balances".data, "N/A".data)]

/-! ## Epoch watcher (discord_bot.py lines 517-555) -/

/-- Outcome of the single `channel.send` attempt inside `post_update`. -/
inductive SendOutcome where
  | success
  | httpError (msg : List Char)
  | otherError (msg : List Char)
deriving DecidableEq

/-- Model of `post_update`'s exception behaviour (lines 382-531): the send
attempt's outcome is a parameter; the `except discord.errors.HTTPException`
clause (lines 517-522) and the `except Exception` clause (lines 523-531) catch
every failure and return normally, so the call never propagates an exception
(`none` models an exception escaping to the caller). -/
def post_update (o : SendOutcome) : Option Unit :=
  match o with
  | SendOutcome.success => some ()
  | SendOutcome.httpError _ => some ()
  | SendOutcome.otherError _ => some ()

/-- Model of one tick of the `check_epoch` loop (lines 533-555). The state is
the global `current_epoch` (`none` models the initial `None`); `read` is the
result of `get_current_epoch()` (`none` models a failed read); `o` is the
outcome of the publish attempt. Returns the new state and whether a publish
attempt was triggered: a failed read skips the tick; an uninitialised state
arms without publishing; a strictly larger epoch publishes via `post_update`
and then advances `current_epoch` (the advance would be skipped only if
`post_update` propagated an exception); otherwise nothing changes. -/
def check_epoch_tick (st : Option ℕ) (read : Option ℕ) (o : SendOutcome) :
    Option ℕ × Bool :=
  match read with
  | none => (st, false)
  | some e' =>
    match st with
    | none => (some e', false)
    | some e =>
      if e' > e then
        match post_update o with
        | some _ => (some e', true)
        | none => (st, true)
      else (st, false)

/-- Run the watcher over a list of (epoch read, publish outcome) ticks,
returning for each tick the state after the tick and whether it published. -/
def runWatcher (st : Option ℕ) : List (Option ℕ × SendOutcome) → List (Option ℕ × Bool)
  | [] => []
  | (r, o) :: rest =>
    let s := check_epoch_tick st r o
    s :: runWatcher s.1 rest

/-! ## Expense category normalisation (discord_bot.py lines 158-165) -/

/-- The preset expense categories (line 159). -/
def valid_categories : List (List Char) :=
  ["LST Reserve".data, "Server Payment".data, "vSOL Transfer".data,
   "Team Payout".data, "Other".data]

/-- Model of the category normalisation of `ExpenseModal.on_submit`
(lines 158-165): the stripped input is kept unchanged when it is a preset
category or starts with `"Other"`; otherwise it becomes `"Other: <input>"`. -/
def normalizeCategory (input : List Char) : List Char :=
  let category_val := pyStrip input
  if ¬ (valid_categories.contains category_val = true)
      ∧ ¬ (beginsWith "Other".data category_val = true) then
    "Other: ".data ++ category_val
  else category_val

/-! ## Ledger writer (expense_handler.py lines 59-272) -/

/-- The result dictionary of a sub-write: a `success` flag and a `message`. -/
structure OpResult where
  success : Bool
  message : List Char

/-- Model of `ExpenseHandler.log_expense` (lines 234-272): the Google Sheets
write and the Discord post are both performed unconditionally (their results
are the parameters), and the outcomes are combined — both succeed → overall
success; both fail → overall failure surfacing both reasons; exactly one
fails → overall failure naming the failing side and surfacing its reason. -/
def log_expense (sheets_result discord_result : OpResult) : OpResult :=
  if sheets_result.success = true ∧ discord_result.success = true then
    ⟨true, "✅ Expense logged successfully to both Google Sheets and Discord!".data⟩
  else if ¬ sheets_result.success = true ∧ ¬ discord_result.success = true then
    ⟨false, "❌ Failed to log expense:\n• Google Sheets: ".data ++ sheets_result.message
      ++ "\n• Discord: ".data ++ discord_result.message⟩
  else
    let failed_system :=
      if ¬ sheets_result.success = true then "Google Sheets".data else "Discord".data
    let successful_system :=
      if ¬ sheets_result.success = true then "Discord".data else "Google Sheets".data
    ⟨false, "❌ Partial failure - ".data ++ successful_system ++ " succeeded but ".data
      ++ failed_system ++ " failed. Please try again.\n• ".data ++ failed_system
      ++ ": ".data
      ++ (if ¬ sheets_result.success = true then sheets_result.message
          else discord_result.message)⟩

/-- External operations issued by `log_expense`. -/
inductive LedgerOp where
  | sheetsWrite
  | discordPost
  | rollback
deriving DecidableEq

/-- The operations `log_expense` performs, in order (lines 250-251): one Google
Sheets write attempt, then one Discord post attempt, whatever the outcomes —
the code contains no compensating rollback of a succeeded side. -/
def log_expense_ops (_ _ : OpResult) : List LedgerOp :=
  [LedgerOp.sheetsWrite, LedgerOp.discordPost]

/-- External operations against the Google Sheets service. -/
inductive SheetOp where
  | initSvc
  | headerRead
  | headerWrite
  | appendRow
deriving DecidableEq

/-- Model of `setup_headers_if_needed` (lines 59-114) on its success path:
initialise the service when not yet ready, read the header range `A1:H1`, and
rewrite the headers only when they are missing or do not match the desired
schema (`headersOk = false`). -/
def setup_headers_if_needed (serviceReady headersOk : Bool) : List SheetOp :=
  (if serviceReady then [] else [SheetOp.initSvc]) ++
    [SheetOp.headerRead] ++ (if headersOk then [] else [SheetOp.headerWrite])

/-- Model of `log_to_google_sheets` (lines 116-154) on its success path: it
initialises the service when needed, always calls `setup_headers_if_needed`
(line 127; the service is ready by then), and then appends the row. -/
def log_to_google_sheets_ops (serviceReady headersOk : Bool) : List SheetOp :=
  (if serviceReady then [] else [SheetOp.initSvc]) ++
    setup_headers_if_needed true headersOk ++ [SheetOp.appendRow]

/-! ## Predicates used by the statements -/

/-- `occursIn needle hay`: the string `needle` appears contiguously in `hay`. -/
def occursIn (needle hay : List Char) : Prop :=
  ∃ a b, hay = a ++ needle ++ b

/-- A character of a plain decimal literal: a digit, `'.'`, `'+'` or `'-'`. -/
def plainNumChar (c : Char) : Prop :=
  isDig c = true ∨ c = '.' ∨ c = '+' ∨ c = '-'

instance (c : Char) : Decidable (plainNumChar c) := by
  unfold plainNumChar; infer_instance

/-! ## Helper lemmas -/

theorem upchar_eq_self_of_plain (c : Char) (h : plainNumChar c) : upchar c = c := by
  rcases h with h | h | h | h
  · have h' : 48 ≤ c.toNat ∧ c.toNat ≤ 57 := by
      simpa [isDig, Bool.and_eq_true, decide_eq_true_iff] using h
    unfold upchar
    rw [if_neg]
    simp only [Bool.and_eq_true, decide_eq_true_iff, not_and]
    omega
  · subst h; decide
  · subst h; decide
  · subst h; decide

theorem plain_toNat (c : Char) (h : plainNumChar c) :
    (48 ≤ c.toNat ∧ c.toNat ≤ 57) ∨ c.toNat = 46 ∨ c.toNat = 43 ∨ c.toNat = 45 := by
  rcases h with h | h | h | h
  · left; simpa [isDig, Bool.and_eq_true, decide_eq_true_iff] using h
  · subst h; right; left; rfl
  · subst h; right; right; left; rfl
  · subst h; right; right; right; rfl

theorem plain_ne (c : Char) (h : plainNumChar c) (d : Char)
    (hd : d.toNat = 75 ∨ d.toNat = 77 ∨ d.toNat = 36 ∨ d.toNat = 44) : c ≠ d := by
  intro he
  have h2 := plain_toNat c h
  rw [he] at h2
  omega

theorem upperL_eq_self (s : List Char) (h : ∀ c ∈ s, plainNumChar c) : upperL s = s := by
  induction s with
  | nil => rfl
  | cons a t ih =>
    simp only [upperL, List.map_cons]
    rw [upchar_eq_self_of_plain a (h a (by simp))]
    have ht := ih (fun c hc => h c (by simp [hc]))
    simpa [upperL] using ht

theorem removeAll_append (c : Char) (s t : List Char) :
    removeAllChar c (s ++ t) = removeAllChar c s ++ removeAllChar c t := by
  simp [removeAllChar, List.filter_append]

theorem removeAll_eq_self (c : Char) (s : List Char) (h : ∀ d ∈ s, d ≠ c) :
    removeAllChar c s = s := by
  induction s with
  | nil => rfl
  | cons a t ih =>
    have ha : a ≠ c := h a (by simp)
    have ht := ih (fun d hd => h d (by simp [hd]))
    simp only [removeAllChar, List.filter_cons] at ht ⊢
    simp [ha, ht]
    exact fun d hd => h d (by simp [hd])

theorem removeAll_cons_self (c : Char) (xs : List Char) :
    removeAllChar c (c :: xs) = removeAllChar c xs := by
  simp [removeAllChar]

theorem removeAll_singleton_ne (c a : Char) (h : a ≠ c) : removeAllChar c [a] = [a] := by
  simp [removeAllChar, h]

theorem removeAll_singleton_self (c : Char) : removeAllChar c [c] = [] := by
  simp [removeAllChar]

theorem hasChar_append (s t : List Char) (c : Char) :
    hasChar (s ++ t) c = (hasChar s c || hasChar t c) := by
  induction s with
  | nil => simp [hasChar]
  | cons a u ih => simp [hasChar, ih, Bool.or_assoc]

theorem hasChar_eq_false (s : List Char) (c : Char) (h : ∀ d ∈ s, d ≠ c) :
    hasChar s c = false := by
  induction s with
  | nil => rfl
  | cons a t ih =>
    have ha : a ≠ c := h a (by simp)
    have ht := ih (fun d hd => h d (by simp [hd]))
    simp [hasChar, ha, ht]

theorem walletParseRows_fst (rows : List (List (List Char))) :
    (walletParseRows rows).1 = rows.filterMap walletRowParse := by
  induction rows with
  | nil => rfl
  | cons r rest ih =>
    cases hr : walletRowParse r with
    | none => simp [walletParseRows, hr, ih]
    | some e => simp [walletParseRows, hr, ih]

theorem walletParseRows_snd (rows : List (List (List Char))) :
    (walletParseRows rows).2 = ((walletParseRows rows).1.map Prod.snd).sum := by
  induction rows with
  | nil => rfl
  | cons r rest ih =>
    cases hr : walletRowParse r with
    | none => simp [walletParseRows, hr, ih]
    | some e => simp [walletParseRows, hr, ih]

theorem walletParseRows_skip (bad : List (List Char)) (hbad : walletRowParse bad = none)
    (pre post : List (List (List Char))) :
    walletParseRows (pre ++ bad :: post) = walletParseRows (pre ++ post) := by
  induction pre with
  | nil => simp [walletParseRows, hbad]
  | cons r pre ih =>
    cases hr : walletRowParse r with
    | none => simp [walletParseRows, hr, ih]
    | some e => simp [walletParseRows, hr, ih]

theorem pyFloat_three_one : pyFloat "3.1".data = some ((31 : ℚ) / 10) := by
  have h : pyFloat "3.1".data = some ((1 : ℚ) * (((31 : ℕ) : ℚ) / 10 ^ (1 : ℕ))) := rfl
  rw [h]
  norm_num

theorem pyFloat_one_two : pyFloat "1.2".data = some ((6 : ℚ) / 5) := by
  have h : pyFloat "1.2".data = some ((1 : ℚ) * (((12 : ℕ) : ℚ) / 10 ^ (1 : ℕ))) := rfl
  rw [h]
  norm_num

theorem pyFloat_one_five : pyFloat "1.5".data = some ((3 : ℚ) / 2) := by
  have h : pyFloat "1.5".data = some ((1 : ℚ) * (((15 : ℕ) : ℚ) / 10 ^ (1 : ℕ))) := rfl
  rw [h]
  norm_num

theorem roundHalfEven_natCast (n : ℕ) : roundHalfEven (n : ℚ) = n := by
  unfold roundHalfEven
  rw [Int.floor_natCast]
  norm_num

theorem fmtComma_of_cast (q : ℚ) (prec n : ℕ) (h : q * 10 ^ prec = (n : ℚ))
    (hq : ¬ q < 0) :
    fmtComma q prec = natDigitsGrouped (n / 10 ^ prec) ++
      (if prec = 0 then [] else '.' :: padZeros prec (natDigits (n % 10 ^ prec))) := by
  unfold fmtComma
  rw [h, roundHalfEven_natCast, if_neg hq]
  simp

/-! ## Claim theorems -/

/-- Claim C2: fed the epoch reads `[failure, 10, 10, 11, 9, 12]` starting from the
uninitialised state, the `check_epoch` loop publishes exactly twice, at the
reads 11 and 12; the first successful read (10) only arms the watcher without
publishing, the equal read (10) and the lower read (9) trigger nothing, and
the failed first read leaves the state unchanged while the loop keeps
running (the remaining ticks are still processed). -/
theorem check_epoch_scenario :
    runWatcher none
        [(none, SendOutcome.success), (some 10, SendOutcome.success),
         (some 10, SendOutcome.success), (some 11, SendOutcome.success),
         (some 9, SendOutcome.success), (some 12, SendOutcome.success)]
      = [(none, false), (some 10, false), (some 10, false),
         (some 11, true), (some 11, false), (some 12, true)]
    ∧ ((runWatcher none
        [(none, SendOutcome.success), (some 10, SendOutcome.success),
         (some 10, SendOutcome.success), (some 11, SendOutcome.success),
         (some 9, SendOutcome.success), (some 12, SendOutcome.success)]).filter
          (fun p => p.2)).length = 2 := by
  constructor <;> rfl

/-- Claim C3: on a detected epoch increase `e < e'` the watcher makes the publish
attempt and advances `current_epoch` to `e'` whatever the publish outcome is
(`post_update` catches every exception and returns normally), and a
subsequent tick reading the same epoch `e'` triggers nothing — each epoch
transition triggers at most one publish attempt, and a failed delivery is
never retried for the same transition. -/
theorem epoch_advance_regardless_of_publish (e e' : ℕ) (o o' : SendOutcome)
    (h : e < e') :
    post_update o = some ()
    ∧ check_epoch_tick (some e) (some e') o = (some e', true)
    ∧ check_epoch_tick (some e') (some e') o' = (some e', false) := by
  have hp : post_update o = some () := by cases o <;> rfl
  refine ⟨hp, ?_, ?_⟩
  · simp [check_epoch_tick, h, hp]
  · simp [check_epoch_tick]

/-- Witness for C3 at the transition 10 → 11 with a failing publish. -/
theorem epoch_advance_regardless_of_publish_witness :
    check_epoch_tick (some 10) (some 11) (SendOutcome.httpError "boom".data)
      = (some 11, true)
    ∧ check_epoch_tick (some 11) (some 11) SendOutcome.success
      = (some 11, false) :=
  ⟨(epoch_advance_regardless_of_publish 10 11 (SendOutcome.httpError "boom".data)
      SendOutcome.success (by norm_num)).2.1,
   (epoch_advance_regardless_of_publish 10 11 (SendOutcome.httpError "boom".data)
      SendOutcome.success (by norm_num)).2.2⟩

/-- Counterexample for C4: percentages are not held as a fraction of one — for the
API fraction `0.0805` (an APY of 8.05%) the value returned by
`get_sanctum_apy`, and held in `sanctum_apy` until display, is `8.05`, not
`0.0805`. -/
theorem apy_not_stored_as_fraction :
    get_sanctum_apy (some (805 / 10000)) = some (805 / 100)
    ∧ get_sanctum_apy (some (805 / 10000)) ≠ some (805 / 10000) := by
  constructor
  · simp only [get_sanctum_apy, Option.some.injEq]
    norm_num
  · simp only [get_sanctum_apy, ne_eq, Option.some.injEq]
    norm_num

/-- Amended claim C4: percentage values are converted to display-percent form at
the fetch boundary — `get_sanctum_apy` multiplies the API's fractional
`latestApy` by 100, and that display-percent value is what the bot holds —
while the output boundary merely formats the held value with two decimals and
appends `%`, with no further scaling; absent data stays `None` and renders as
`"N/A"`. -/
theorem apy_stored_as_display_percent (a : ℚ) :
    get_sanctum_apy (some a) = some (a * 100)
    ∧ get_sanctum_apy none = none
    ∧ apyFieldValue (get_sanctum_apy (some a)) = fmtPlain (a * 100) 2 ++ ['%']
    ∧ apyFieldValue none = "N/A".data :=
  ⟨rfl, rfl, rfl, rfl⟩

/-- Claim C5: when the wallet-balance fetch fails, the returned data carries a
first-class error marker, and the report renders the error rather than a zero
total: the embed holds a single `Wallet Balances` error field and no
`Total Wallet Balance` field at all. -/
theorem wallet_fetch_failure_not_reported_as_zero (e : List Char) (he : e ≠ []) :
    (get_wallet_balances_failed e).error = some e
    ∧ walletEmbedFields (get_wallet_balances_failed e)
        = [("Wallet Balances".data, "Error fetching: ".data ++ e)]
    ∧ ∀ p ∈ walletEmbedFields (get_wallet_balances_failed e),
        p.1 ≠ "Total Wallet Balance".data := by
  refine ⟨rfl, ?_, ?_⟩
  · simp [walletEmbedFields, get_wallet_balances_failed, he]
  · intro p hp
    simp [walletEmbedFields, get_wallet_balances_failed, he] at hp
    rw [hp]
    show "Wallet Balances".data ≠ "Total Wallet Balance".data
    decide

/-- Witness for C5 at the error reason `"timeout"`. -/
theorem wallet_fetch_failure_not_reported_as_zero_witness :
    walletEmbedFields (get_wallet_balances_failed "timeout".data)
      = [("Wallet Balances".data, "Error fetching: timeout".data)] := by
  have h := wallet_fetch_failure_not_reported_as_zero "timeout".data (by decide)
  rw [h.2.1]
  decide

/-- Claim C7: the function `format_volume` renders a numeric value below 1,000 as a plain
2-decimal currency string, a value in `[1,000, 1,000,000)` divided by 1,000
with one decimal and a `K` suffix, and a value of at least 1,000,000 divided
by 1,000,000 with one decimal and an `M` suffix; `None` and non-numeric
inputs render as the literal `"N/A"`. -/
theorem format_volume_ranges (v : ℚ) :
    (v < 1000 → format_volume (PyVal.num v) = '$' :: fmtComma v 2)
    ∧ (1000 ≤ v → v < 1000000 →
        format_volume (PyVal.num v) = '$' :: (fmtComma (v / 1000) 1 ++ ['K']))
    ∧ (1000000 ≤ v →
        format_volume (PyVal.num v) = '$' :: (fmtComma (v / 1000000) 1 ++ ['M']))
    ∧ format_volume PyVal.pnone = "N/A".data
    ∧ (∀ s, format_volume (PyVal.str s) = "N/A".data) := by
  refine ⟨?_, ?_, ?_, rfl, fun s => rfl⟩
  · intro h
    have h1 : ¬ v ≥ 1000000 := by linarith
    have h2 : ¬ v ≥ 1000 := by linarith
    simp [format_volume, h1, h2]
  · intro h1 h2
    have h3 : ¬ v ≥ 1000000 := by linarith
    simp [format_volume, h3, ge_iff_le, h1]
  · intro h
    simp [format_volume, ge_iff_le, h]

/-- Witness for C7 in each numeric range and at `None`. -/
theorem format_volume_ranges_witness :
    format_volume (PyVal.num 500) = "$500.00".data
    ∧ format_volume (PyVal.num 3100) = "$3.1K".data
    ∧ format_volume (PyVal.num 1200000) = "$1.2M".data
    ∧ format_volume PyVal.pnone = "N/A".data := by
  have e1 : fmtComma 500 2 = "500.00".data := by
    rw [fmtComma_of_cast 500 2 50000 (by norm_num) (by norm_num)]
    decide
  have e2 : fmtComma (3100 / 1000) 1 = "3.1".data := by
    rw [fmtComma_of_cast (3100 / 1000) 1 31 (by norm_num) (by norm_num)]
    decide
  have e3 : fmtComma (1200000 / 1000000) 1 = "1.2".data := by
    rw [fmtComma_of_cast (1200000 / 1000000) 1 12 (by norm_num) (by norm_num)]
    decide
  refine ⟨?_, ?_, ?_, (format_volume_ranges 0).2.2.2.1⟩
  · rw [(format_volume_ranges 500).1 (by norm_num), e1]
  · rw [(format_volume_ranges 3100).2.1 (by norm_num) (by norm_num), e2]
    decide
  · rw [(format_volume_ranges 1200000).2.2.1 (by norm_num), e3]
    decide

/-- Counterexample for C8: the header repair is not once-per-session — even with
the service initialised and the headers already correct (the state after a
first successful write of a session), a further `log_to_google_sheets` call
still re-reads the header row before appending, instead of performing only
the row append. -/
theorem header_check_not_once_per_session :
    log_to_google_sheets_ops true true = [SheetOp.headerRead, SheetOp.appendRow]
    ∧ log_to_google_sheets_ops true true ≠ [SheetOp.appendRow]
    ∧ SheetOp.headerRead ∈ log_to_google_sheets_ops true true := by
  refine ⟨rfl, by decide, by decide⟩

/-- Amended claim C8: the header/schema check runs on every write call, as part of
the per-entry write path — each `log_to_google_sheets` call re-reads the
header row before the row append and rewrites it exactly when it is missing
or outdated, and the row append is always the final operation. -/
theorem header_check_on_every_write (serviceReady headersOk : Bool) :
    SheetOp.headerRead ∈ log_to_google_sheets_ops serviceReady headersOk
    ∧ (headersOk = true →
        SheetOp.headerWrite ∉ log_to_google_sheets_ops serviceReady headersOk)
    ∧ (headersOk = false →
        SheetOp.headerWrite ∈ log_to_google_sheets_ops serviceReady headersOk)
    ∧ (log_to_google_sheets_ops serviceReady headersOk).getLast?
        = some SheetOp.appendRow := by
  cases serviceReady <;> cases headersOk <;> decide

/-- Witness for C8 (amended) on a write with healthy headers. -/
theorem header_check_on_every_write_witness :
    SheetOp.headerRead ∈ log_to_google_sheets_ops true true
    ∧ SheetOp.headerWrite ∉ log_to_google_sheets_ops true true :=
  ⟨(header_check_on_every_write true true).1,
   (header_check_on_every_write true true).2.1 rfl⟩

/-- Claim C9: parsing the wallet-balance rows keeps exactly the rows whose balance
field parses as a number, skipping each malformed row individually — removing
a malformed row from the feed leaves the result unchanged, so a malformed row
is never fatal — every well-formed row is included, and the returned total is
the sum of the successfully parsed balances only. -/
theorem wallet_rows_individually_skipped (rows : List (List (List Char))) :
    (walletParseRows rows).1 = rows.filterMap walletRowParse
    ∧ (walletParseRows rows).2 = ((walletParseRows rows).1.map Prod.snd).sum
    ∧ (∀ r ∈ rows, ∀ e, walletRowParse r = some e → e ∈ (walletParseRows rows).1)
    ∧ (∀ pre post bad, walletRowParse bad = none →
        walletParseRows (pre ++ bad :: post) = walletParseRows (pre ++ post)) := by
  refine ⟨walletParseRows_fst rows, walletParseRows_snd rows, ?_, ?_⟩
  · intro r hr e he
    rw [walletParseRows_fst]
    exact List.mem_filterMap.mpr ⟨r, hr, he⟩
  · intro pre post bad hbad
    exact walletParseRows_skip bad hbad pre post

/-- Witness for C9 on a feed with one malformed row among two good ones. -/
theorem wallet_rows_individually_skipped_witness :
    walletParseRows
        [["w1".data, "1.5".data], ["w2".data, "abc".data], ["w3".data, "2.25".data]]
      = walletParseRows [["w1".data, "1.5".data], ["w3".data, "2.25".data]]
    ∧ ("w1".data, (3 / 2 : ℚ)) ∈ (walletParseRows
        [["w1".data, "1.5".data], ["w2".data, "abc".data],
         ["w3".data, "2.25".data]]).1 := by
  constructor
  · exact (wallet_rows_individually_skipped []).2.2.2
      [["w1".data, "1.5".data]] [["w3".data, "2.25".data]]
      ["w2".data, "abc".data] (by decide)
  · have hr : walletRowParse ["w1".data, "1.5".data] = some ("w1".data, (3 / 2 : ℚ)) := by
      show (pyFloat "1.5".data).map (fun q => ("w1".data, q)) = _
      rw [pyFloat_one_five]
      rfl
    exact (wallet_rows_individually_skipped
        [["w1".data, "1.5".data], ["w2".data, "abc".data],
         ["w3".data, "2.25".data]]).2.2.1
      ["w1".data, "1.5".data] (by decide) ("w1".data, (3 / 2 : ℚ)) hr

/-- Claim C10: after stripping surrounding whitespace, the submitted category is
kept unchanged when it equals one of the five preset categories or starts
with `"Other"`, and any other input is rewritten to `"Other: <input>"`;
consequently every stored category is a preset name or begins with
`"Other"`. -/
theorem category_normalization (input : List Char) :
    (valid_categories.contains (pyStrip input) = true →
        normalizeCategory input = pyStrip input)
    ∧ (beginsWith "Other".data (pyStrip input) = true →
        normalizeCategory input = pyStrip input)
    ∧ (valid_categories.contains (pyStrip input) = false →
        beginsWith "Other".data (pyStrip input) = false →
        normalizeCategory input = "Other: ".data ++ pyStrip input)
    ∧ (valid_categories.contains (normalizeCategory input) = true
        ∨ beginsWith "Other".data (normalizeCategory input) = true) := by
  have hkeep1 : valid_categories.contains (pyStrip input) = true →
      normalizeCategory input = pyStrip input := by
    intro h
    have h' : pyStrip input ∈ valid_categories := by simpa using h
    simp [normalizeCategory, h']
  have hkeep2 : beginsWith "Other".data (pyStrip input) = true →
      normalizeCategory input = pyStrip input := by
    intro h
    simp [normalizeCategory, h]
  have hother : valid_categories.contains (pyStrip input) = false →
      beginsWith "Other".data (pyStrip input) = false →
      normalizeCategory input = "Other: ".data ++ pyStrip input := by
    intro h1 h2
    have h1' : pyStrip input ∉ valid_categories := by simpa using h1
    simp [normalizeCategory, h1', h2]
  refine ⟨hkeep1, hkeep2, hother, ?_⟩
  · by_cases h1 : valid_categories.contains (pyStrip input) = true
    · left
      rw [hkeep1 h1]
      exact h1
    · by_cases h2 : beginsWith "Other".data (pyStrip input) = true
      · right
        rw [hkeep2 h2]
        exact h2
      · right
        rw [hother (by simpa using h1) (by simpa using h2)]
        rfl

/-- Claim C6: magnitude parsing strips the leading `$` and the thousands separators
and handles the `K`/`M` suffixes case-insensitively — for any plain decimal
literal `s` with value `q`, a trailing `K` or `k` multiplies the numeric part
by 1,000, a trailing `M` or `m` multiplies it by 1,000,000, the unsuffixed
string parses as the numeric literal itself, and a non-numeric remainder
(including the empty string) yields `None` instead of raising. -/
theorem parse_magnitude_suffixes (s : List Char) (q : ℚ)
    (hplain : ∀ c ∈ s, plainNumChar c) (hq : pyFloat s = some q) :
    parseVolume (PyVal.str ('$' :: (s ++ ['K']))) = some (q * 1000)
    ∧ parseVolume (PyVal.str ('$' :: (s ++ ['k']))) = some (q * 1000)
    ∧ parseVolume (PyVal.str ('$' :: (s ++ ['M']))) = some (q * 1000000)
    ∧ parseVolume (PyVal.str ('$' :: (s ++ ['m']))) = some (q * 1000000)
    ∧ parseVolume (PyVal.str ('$' :: s)) = some q
    ∧ parseVolume (PyVal.str []) = none
    ∧ parseVolume (PyVal.str "abc".data) = none := by
  have hneD : ∀ d ∈ s, d ≠ '$' := fun d hd => plain_ne d (hplain d hd) '$' (by decide)
  have hneC : ∀ d ∈ s, d ≠ ',' := fun d hd => plain_ne d (hplain d hd) ',' (by decide)
  have hneK : ∀ d ∈ s, d ≠ 'K' := fun d hd => plain_ne d (hplain d hd) 'K' (by decide)
  have hneM : ∀ d ∈ s, d ≠ 'M' := fun d hd => plain_ne d (hplain d hd) 'M' (by decide)
  have rD : removeAllChar '$' s = s := removeAll_eq_self _ _ hneD
  have rC : removeAllChar ',' s = s := removeAll_eq_self _ _ hneC
  have rK : removeAllChar 'K' s = s := removeAll_eq_self _ _ hneK
  have rM : removeAllChar 'M' s = s := removeAll_eq_self _ _ hneM
  have hupS : List.map upchar s = s := by
    have h := upperL_eq_self s hplain
    simpa [upperL] using h
  have hKf : hasChar s 'K' = false := hasChar_eq_false _ _ hneK
  have hMf : hasChar s 'M' = false := hasChar_eq_false _ _ hneM
  have hclean : ∀ c : Char, c ≠ '$' → c ≠ ',' →
      cleanVolumeStr ('$' :: (s ++ [c])) = s ++ [c] := by
    intro c h1 h2
    unfold cleanVolumeStr
    rw [removeAll_cons_self, removeAll_append, rD, removeAll_singleton_ne _ _ h1,
      removeAll_append, rC, removeAll_singleton_ne _ _ h2]
  have hup : ∀ c : Char, upperL (s ++ [c]) = s ++ [upchar c] := by
    intro c
    simp [upperL, hupS]
  have hK : ∀ c : Char, upchar c = 'K' → c ≠ '$' → c ≠ ',' →
      parseVolume (PyVal.str ('$' :: (s ++ [c]))) = some (q * 1000) := by
    intro c hc h1 h2
    simp only [parseVolume]
    rw [hclean c h1 h2, hup c, hc]
    have ht : hasChar (s ++ ['K']) 'K' = true := by
      rw [hasChar_append, hKf]
      rfl
    rw [ht]
    have hr : removeAllChar 'K' (s ++ ['K']) = s := by
      rw [removeAll_append, rK, removeAll_singleton_self]
      simp
    simp [hr, hq]
  have hM : ∀ c : Char, upchar c = 'M' → c ≠ '$' → c ≠ ',' →
      parseVolume (PyVal.str ('$' :: (s ++ [c]))) = some (q * 1000000) := by
    intro c hc h1 h2
    simp only [parseVolume]
    rw [hclean c h1 h2, hup c, hc]
    have hkf : hasChar (s ++ ['M']) 'K' = false := by
      rw [hasChar_append, hKf]
      rfl
    have hmt : hasChar (s ++ ['M']) 'M' = true := by
      rw [hasChar_append, hMf]
      rfl
    rw [hkf, hmt]
    have hr : removeAllChar 'M' (s ++ ['M']) = s := by
      rw [removeAll_append, rM, removeAll_singleton_self]
      simp
    simp [hr, hq]
  refine ⟨hK 'K' rfl (by decide) (by decide), hK 'k' (by decide) (by decide) (by decide),
    hM 'M' rfl (by decide) (by decide), hM 'm' (by decide) (by decide) (by decide),
    ?_, by decide, by decide⟩
  have hcleanS : cleanVolumeStr ('$' :: s) = s := by
    unfold cleanVolumeStr
    rw [removeAll_cons_self, rD, rC]
  simp only [parseVolume]
  rw [hcleanS]
  have hupE : upperL s = s := by simp [upperL, hupS]
  rw [hupE, hKf, hMf, hq]
  rfl

/-- Witness for C6 at the spec's examples `"$3.1K"` and `"$1.2M"` and at the
empty string. -/
theorem parse_magnitude_suffixes_witness :
    parseVolume (PyVal.str "$3.1K".data) = some 3100
    ∧ parseVolume (PyVal.str "$1.2M".data) = some 1200000
    ∧ parseVolume (PyVal.str "".data) = none := by
  refine ⟨?_, ?_,
    (parse_magnitude_suffixes "3.1".data (31 / 10) (by decide) pyFloat_three_one).2.2.2.2.2.1⟩
  · have h := (parse_magnitude_suffixes "3.1".data (31 / 10) (by decide) pyFloat_three_one).1
    exact h.trans (by norm_num)
  · have h :=
      (parse_magnitude_suffixes "1.2".data (6 / 5) (by decide) pyFloat_one_two).2.2.1
    exact h.trans (by norm_num)

/-- Claim C1: the function `log_expense` reports overall success exactly when both the Google
Sheets write and the Discord post succeed; when exactly one side succeeds it
reports overall failure naming the failing side and surfacing that side's
reason; when both fail it reports overall failure surfacing both reasons; and
the only operations performed are the two write attempts, in order — no
compensating rollback of a succeeded side exists. -/
theorem log_expense_dual_write_contract (s d : OpResult) :
    ((log_expense s d).success = true ↔ s.success = true ∧ d.success = true)
    ∧ (s.success = true → d.success = false →
        (log_expense s d).success = false
        ∧ occursIn "Discord".data (log_expense s d).message
        ∧ occursIn d.message (log_expense s d).message)
    ∧ (s.success = false → d.success = true →
        (log_expense s d).success = false
        ∧ occursIn "Google Sheets".data (log_expense s d).message
        ∧ occursIn s.message (log_expense s d).message)
    ∧ (s.success = false → d.success = false →
        (log_expense s d).success = false
        ∧ occursIn s.message (log_expense s d).message
        ∧ occursIn d.message (log_expense s d).message)
    ∧ log_expense_ops s d = [LedgerOp.sheetsWrite, LedgerOp.discordPost] := by
  obtain ⟨ss, sm⟩ := s
  obtain ⟨ds, dm⟩ := d
  cases ss <;> cases ds
  · -- both fail
    refine ⟨by simp [log_expense], ?_, ?_, ?_, rfl⟩
    · intro h _
      simp at h
    · intro _ h
      simp at h
    · intro _ _
      refine ⟨rfl, ?_, ?_⟩
      · exact ⟨"❌ Failed to log expense:\n• Google Sheets: ".data,
          "\n• Discord: ".data ++ dm, by simp [log_expense, List.append_assoc]⟩
      · exact ⟨"❌ Failed to log expense:\n• Google Sheets: ".data ++ sm
            ++ "\n• Discord: ".data, [],
          by simp [log_expense, List.append_assoc]⟩
  · -- sheets fail, discord ok
    refine ⟨by simp [log_expense], ?_, ?_, ?_, rfl⟩
    · intro h _
      simp at h
    · intro _ _
      refine ⟨rfl, ?_, ?_⟩
      · exact ⟨"❌ Partial failure - ".data ++ "Discord".data ++ " succeeded but ".data,
          " failed. Please try again.\n• ".data ++ "Google Sheets".data ++ ": ".data ++ sm,
          by simp [log_expense, List.append_assoc]⟩
      · exact ⟨"❌ Partial failure - ".data ++ "Discord".data ++ " succeeded but ".data
            ++ "Google Sheets".data ++ " failed. Please try again.\n• ".data
            ++ "Google Sheets".data ++ ": ".data, [],
          by simp [log_expense, List.append_assoc]⟩
    · intro _ h
      simp at h
  · -- sheets ok, discord fail
    refine ⟨by simp [log_expense], ?_, ?_, ?_, rfl⟩
    · intro _ _
      refine ⟨rfl, ?_, ?_⟩
      · exact ⟨"❌ Partial failure - ".data ++ "Google Sheets".data ++ " succeeded but ".data,
          " failed. Please try again.\n• ".data ++ "Discord".data ++ ": ".data ++ dm,
          by simp [log_expense, List.append_assoc]⟩
      · exact ⟨"❌ Partial failure - ".data ++ "Google Sheets".data ++ " succeeded but ".data
            ++ "Discord".data ++ " failed. Please try again.\n• ".data
            ++ "Discord".data ++ ": ".data, [],
          by simp [log_expense, List.append_assoc]⟩
    · intro h _
      simp at h
    · intro h _
      simp at h
  · -- both succeed
    refine ⟨by simp [log_expense], ?_, ?_, ?_, rfl⟩
    · intro _ h
      simp at h
    · intro h _
      simp at h
    · intro h _
      simp at h

/-- Witness for C1 with the durable store succeeding and the notification sink
failing. -/
theorem log_expense_dual_write_contract_witness :
    (log_expense ⟨true, "ok".data⟩ ⟨false, "channel not found".data⟩).success = false
    ∧ occursIn "Discord".data
        (log_expense ⟨true, "ok".data⟩ ⟨false, "channel not found".data⟩).message
    ∧ occursIn "channel not found".data
        (log_expense ⟨true, "ok".data⟩ ⟨false, "channel not found".data⟩).message :=
  (log_expense_dual_write_contract ⟨true, "ok".data⟩
    ⟨false, "channel not found".data⟩).2.1 rfl rfl

/-- Witness for C10 on a preset category with whitespace and on a free-text
category. -/
theorem category_normalization_witness :
    normalizeCategory " Team Payout ".data = "Team Payout".data
    ∧ normalizeCategory "groceries".data = "Other: groceries".data := by
  constructor
  · exact ((category_normalization " Team Payout ".data).1 (by decide)).trans (by decide)
  · exact ((category_normalization "groceries".data).2.2.1 (by decide) (by decide)).trans
      (by decide)

end StrongBot
